import Mathlib

/-!
Verification of the puppyteer page-session coordinator and resource-pool
manager, as a shallow embedding of the TypeScript source.

The embedding translates the source files directly:
  - `PuppyteerPage` (src/page.ts): status stack, foreground/background
    token protocol, selector waiting, keyboard synthesis, visibility sort.
  - `Puppyteer` manager (browser module): tab pool, lazy browser creation,
    page-task wrapper.

Asynchronous effects are modelled by explicit state passing; a function
that can throw returns `Except String` alongside the updated state, and
JavaScript try/finally becomes an explicit application of the cleanup to
the state of both branches.
-/

namespace Puppyteer

/-- Foreground/background mode selector (`"foreground" | "background"` in the
source). `Option Mode` models an optional parameter. -/
inductive Mode where
  | foreground
  | background
deriving DecidableEq, Repr

/-- Renders the mode the way JavaScript template interpolation renders the
optional argument (an absent argument prints as "undefined"). -/
def modeString : Option Mode → String
  | none => "undefined"
  | some Mode.foreground => "foreground"
  | some Mode.background => "background"

/-- A timed-delay event recorded by the model of `setTimeout`, remembering
whether the session held the active-page mutex at the moment of the delay. -/
structure Delay where
  ms : Nat
  tokenHeld : Bool
deriving DecidableEq, Repr

/-- Observable state of one `PuppyteerPage` session together with the parts
of the shared `Puppyteer` browser object it touches.

`statusStack` is the JS array `statusStack` (last element = top of stack).
`inForeground` is the session flag of the same name; `tokenHeld` models
ownership of the shared `activePageMutex`.  `sent` records every invocation
of the external status callback `config.fStatus`, oldest first.
`consoleLog` records `console.log` calls made by `statusPop` (the popped
entry may be `undefined`, hence `Option`).  `events` records timed delays. -/
structure SessionState where
  statusStack : List String := []
  inForeground : Bool := false
  tokenHeld : Bool := false
  sent : List String := []
  consoleLog : List (Option String) := []
  logActivity : Bool := false
  events : List Delay := []
deriving DecidableEq, Repr

namespace SessionState

/-- `this.config.fStatus(msg)`: publish a status string to the external
status sink. -/
def fStatus (m : String) (s : SessionState) : SessionState :=
  { s with sent := s.sent ++ [m] }

/-- `statusPush(msg)`: concatenates the new message onto the current
top-of-stack entry (separated by " -- ") when that entry is non-empty,
publishes the concatenated string, and pushes it. -/
def statusPush (msg : String) (s : SessionState) : SessionState :=
  let prev := (s.statusStack.getLast?).getD ""
  let m := if prev = "" then msg else prev ++ " -- " ++ msg
  let s := fStatus m s
  { s with statusStack := s.statusStack ++ [m] }

/-- `statusPop(logActivity)`: removes the top entry, logs it to the console
when activity logging is enabled (the popped value may be `undefined` when
the stack was empty), and republishes the new top entry or "". -/
def statusPop (logAct : Bool) (s : SessionState) : SessionState :=
  let msg := s.statusStack.getLast?
  let stack := s.statusStack.dropLast
  let s := { s with
    statusStack := stack,
    consoleLog := if logAct && s.logActivity then s.consoleLog ++ [msg] else s.consoleLog }
  fStatus ((stack.getLast?).getD "") s

/-- `acquireActivePage()`: pushes a waiting status, acquires the shared
active-page mutex, marks the session in-foreground, pops the status and
brings the tab to front (the visual effect has no observable state here). -/
def acquireActivePage (s : SessionState) : SessionState :=
  let s := statusPush "Waiting for active page" s
  let s := { s with tokenHeld := true, inForeground := true }
  statusPop false s

/-- `releaseActivePage()`: clears the in-foreground flag and releases the
active-page mutex. -/
def releaseActivePage (s : SessionState) : SessionState :=
  { s with inForeground := false, tokenHeld := false }

end SessionState

open SessionState

/-- `runInForeground(fn)`: if already in the foreground, invokes `fn`
directly.  Otherwise acquires the active page and invokes `fn` inside
try/finally, so `releaseActivePage` is applied to the resulting state on
both the normal and the throwing branch. -/
def runInForeground {α : Type} (fn : SessionState → Except String α × SessionState)
    (s : SessionState) : Except String α × SessionState :=
  if s.inForeground then fn s
  else
    let s1 := acquireActivePage s
    let r := fn s1
    (r.1, releaseActivePage r.2)

/-- `runInBackground(fn)`: if already not in the foreground, invokes `fn`
directly.  Otherwise releases the active page, runs `fn`, and then
re-acquires — but only on the normal-return branch: the source has no
try/finally here, so a thrown error propagates before the re-acquire
statement is reached. -/
def runInBackground {α : Type} (fn : SessionState → Except String α × SessionState)
    (s : SessionState) : Except String α × SessionState :=
  if !s.inForeground then fn s
  else
    let s1 := releaseActivePage s
    match fn s1 with
    | (Except.ok r, s2) => (Except.ok r, acquireActivePage s2)
    | (Except.error e, s2) => (Except.error e, s2)

/-- The inner callback `f` of `wait(ms, waitIn)`: pushes the waiting status,
performs the timed delay (recorded with the current mutex ownership), and
pops the status without logging. -/
def waitBody (ms : Nat) (waitIn : Option Mode) (s : SessionState) :
    Except String Unit × SessionState :=
  let s := statusPush ("Waiting " ++ toString ms ++ "ms in " ++ modeString waitIn) s
  let s := { s with events := s.events ++ [⟨ms, s.tokenHeld⟩] }
  (Except.ok (), statusPop false s)

/-- `wait(ms, waitIn)`: routes the delay through `runInBackground` when the
mode is "background"; otherwise runs the delay callback directly in the
caller's current state (no routing through `runInForeground`). -/
def wait (ms : Nat) (waitIn : Option Mode) (s : SessionState) :
    Except String Unit × SessionState :=
  if waitIn = some Mode.background then runInBackground (waitBody ms waitIn) s
  else waitBody ms waitIn s

/-- `yield()`: `wait(0, "background")`. -/
def yieldPage (s : SessionState) : Except String Unit × SessionState :=
  wait 0 (some Mode.background) s

/-! ## Resource-pool manager (`Puppyteer` class) -/

/-- Observable state of the `Puppyteer` manager.  Pages are identified by
numbers.  `availablePages` models the JS array of reusable pages: `push`
appends at the end and `pop` removes from the end.  `launches` counts how
many times the underlying driver `launch` ran. -/
structure MgrState where
  browser : Option Nat := none
  availablePages : List Nat := []
  activePage : Option Nat := none
  launches : Nat := 0
deriving DecidableEq, Repr

/-- Environment for the manager: the pages a fresh browser launch reports
(`browser.pages()`), and the page a `browser.newPage()` call would return. -/
structure MgrEnv where
  seedPages : List Nat
  freshPage : Nat
deriving DecidableEq, Repr

/-- `create()`: returns at once when a browser exists; otherwise launches
one (the double-checked browser mutex collapses in this sequential model),
appends the pages the launch produced to the available pool, and stores the
browser.  The viewport setup has no observable state here. -/
def create (env : MgrEnv) (s : MgrState) : MgrState :=
  if s.browser.isSome then s
  else
    { s with
      browser := some (s.launches + 1),
      launches := s.launches + 1,
      availablePages := s.availablePages ++ env.seedPages }

/-- `getPage()`: pops a page from the available pool if possible; else
ensures the browser exists via `create`, re-checks the pool (creation may
have seeded it), asks for a new page only if it is still empty, and resets
the active-page bookkeeping.  The returned Bool records whether `create`
was invoked. -/
def getPage (env : MgrEnv) (s : MgrState) : Nat × MgrState × Bool :=
  match s.availablePages.getLast? with
  | some p => (p, { s with availablePages := s.availablePages.dropLast }, false)
  | none =>
    let s1 := create env s
    match s1.availablePages.getLast? with
    | some p =>
      (p, { s1 with availablePages := s1.availablePages.dropLast, activePage := none }, true)
    | none => (env.freshPage, { s1 with activePage := none }, true)

/-- `acceptClosedPage(page)`: pushes the page back onto the available pool. -/
def acceptClosedPage (p : Nat) (s : MgrState) : MgrState :=
  { s with availablePages := s.availablePages ++ [p] }

/-- The task body registered by `addPageTask`: grabs a page, runs the
navigation and the foreground execution function (whose combined outcome is
`bodyOutcome`), and inside try/catch/finally logs and re-raises any error
while unconditionally returning the page to the pool.  The `finally` block
runs on both branches before the error reaches the caller, so the state
paired with the propagated error already contains the returned page. -/
def addPageTaskBody (env : MgrEnv) (bodyOutcome : Except String Unit)
    (s : MgrState) : Except String Unit × MgrState :=
  let acq := getPage env s
  let r : Except String Unit :=
    match bodyOutcome with
    | Except.ok u => Except.ok u
    | Except.error e => Except.error e
  (r, acceptClosedPage acq.1 acq.2.1)

/-! ## Selector waiting (`waitForSelector` family) -/

/-- The driver-facing behaviour of one page for a fixed selector:
`matchesNow` is what `page.$$(selector)` returns at the first immediate
query, `trulyVisible` the outcome of `isTrulyVisible` per element (the
geometry itself is out of scope for these claims), `native` the outcome of
the driver's `page.waitForSelector` (a timeout surfaces as a thrown driver
error), and `matchesAfter` what `page.$$(selector)` returns at the
visibility re-check after the native wait. -/
structure PageModel where
  matchesNow : List Nat
  trulyVisible : Nat → Bool
  native : Except String (Option Nat)
  matchesAfter : List Nat

/-- `getSelectorImmediate(selector, {visible})`: with the visibility flag,
scans all current matches and returns the first truly visible one; without
it, returns the driver's first raw match (`page.$(selector)`). -/
def getSelectorImmediate (ms : List Nat) (visible : Bool) (vis : Nat → Bool) :
    Option Nat :=
  if visible then ms.find? vis else ms.head?

/-- Options of the selector-wait family.  `timeoutMs = 0` models both an
absent and a zero timeout (both are falsy in the source's
`!options.timeoutMs` test). -/
structure SelectorOptions where
  timeoutMs : Nat := 0
  waitIn : Option Mode := none
  visible : Bool := false

/-- `waitForSelector(selector, options)`: tries the immediate query first;
with no timeout configured returns null at once; otherwise runs the
driver's native wait (status push/pop and the optional background routing
do not affect the returned value), turning any thrown driver error into
null via catch; finally, a non-null native result with the visibility flag
set is re-checked with the immediate visibility scan. -/
def waitForSelector (pm : PageModel) (opts : SelectorOptions) : Option Nat :=
  match getSelectorImmediate pm.matchesNow opts.visible pm.trulyVisible with
  | some r => some r
  | none =>
    if opts.timeoutMs = 0 then none
    else
      match pm.native with
      | Except.error _ => none
      | Except.ok none => none
      | Except.ok (some r) =>
        if opts.visible then getSelectorImmediate pm.matchesAfter true pm.trulyVisible
        else some r

/-- `waitForSelectorOrFail(selector, options)`: same as `waitForSelector`
but a null result becomes a thrown error carrying the selector text. -/
def waitForSelectorOrFail (pm : PageModel) (opts : SelectorOptions)
    (selector : String) : Except String Nat :=
  match waitForSelector pm opts with
  | none => Except.error ("Couldn\x27t find required selector: " ++ selector)
  | some r => Except.ok r

/-! ## Visibility sort (`getFirstVisibleElement`) -/

/-- One entry of the `els` array built by `getFirstVisibleElement`: the
element's bounding-rectangle position and the insertion index stored as the
intended tiebreaker. -/
structure VisEl where
  top : Int
  left : Int
  idx : Nat
deriving DecidableEq, Repr

/-- The comparator passed to `els.sort` by `getFirstVisibleElement`,
verbatim: `(a.rect.top - b.rect.top) * 1000000 + (a.rect.left - b.rect.left)
* 100 + idx`.  The trailing `idx` is the enclosing loop counter — by the
time the sort runs it equals the number of visible elements pushed — not
the per-element `idx` fields. -/
def sortComparator (idxTotal : Int) (a b : VisEl) : Int :=
  (a.top - b.top) * 1000000 + (a.left - b.left) * 100 + idxTotal

/-- Builds the `els` array from the per-source visibility rectangles,
assigning consecutive insertion indices to the visible ones (parentLevel
substitution does not change positions or indices and is omitted). -/
def buildVisibleEls (rects : List (Option (Int × Int))) : List VisEl :=
  (rects.filterMap id).enum.map fun rp => ⟨rp.2.1, rp.2.2, rp.1⟩

/-! ## Keyboard synthesis (`typeInElement`)

Text is represented as a list of characters so that the JavaScript string
operations (split on newline, trim trailing whitespace) become structural
list functions. -/

/-- One driver keyboard call (`page.keyboard.type/down/press/up`). -/
inductive KeyEv where
  | typeText (s : List Char)
  | down (k : String)
  | press (k : String)
  | up (k : String)
deriving DecidableEq, Repr

/-- `text.split(sep)` for a single-character separator: splits the text at
every newline, keeping empty pieces (so a trailing newline yields a
trailing empty line, exactly as in JavaScript). -/
def splitLines : List Char → List (List Char)
  | [] => [[]]
  | c :: rest =>
    match splitLines rest with
    | [] => []
    | l :: ls => if c = Char.ofNat 10 then [] :: l :: ls else (c :: l) :: ls

/-- `line.trimEnd()`: removes trailing whitespace characters. -/
def trimRightChars (cs : List Char) : List Char :=
  (cs.reverse.dropWhile Char.isWhitespace).reverse

/-- The body of the per-line loop in the multi-line branch of
`typeInElement`: trims trailing whitespace, sends the line as keystrokes
only when non-empty, and then always sends Shift-down, Enter, Shift-up. -/
def perLineKeys (line : List Char) : List KeyEv :=
  let l := trimRightChars line
  (if l ≠ [] then [KeyEv.typeText l] else []) ++
    [KeyEv.down "Shift", KeyEv.press "Enter", KeyEv.up "Shift"]

/-- The sequence of keyboard calls `typeInElement` makes for the given
text: in multi-line mode it runs the per-line loop over the newline-split
text; in single-line mode it sends the text as one stream.  A final plain
Enter is appended exactly when `pressReturnAtEnd` is set. -/
def typeInElementKeys (multiLinedShiftReturn pressReturnAtEnd : Bool)
    (text : List Char) : List KeyEv :=
  let main :=
    if multiLinedShiftReturn then (splitLines text).flatMap perLineKeys
    else [KeyEv.typeText text]
  main ++ (if pressReturnAtEnd then [KeyEv.press "Enter"] else [])

/-! ## Concrete fixtures used by witnesses and counterexamples -/

/-- A session-visible function that always throws. -/
def fnBoom : SessionState → Except String Unit × SessionState :=
  fun s => (Except.error "boom", s)

/-- A session currently holding the foreground: the in-foreground flag is
set and the active-page mutex is held. -/
def fgState : SessionState :=
  { inForeground := true, tokenHeld := true }

/-- A page on which the selector never matches and the native wait throws a
timeout error. -/
def pmTimeout : PageModel :=
  { matchesNow := [], trulyVisible := fun _ => false,
    native := Except.error "TimeoutError", matchesAfter := [] }

/-- A manager whose available pool holds one page. -/
def mgrPool1 : MgrState := { availablePages := [7] }

/-- A launch environment for witnesses. -/
def env0 : MgrEnv := { seedPages := [], freshPage := 99 }

/-! ## Helper lemmas about the session primitives -/

/-- The entry a push stores: the previous top concatenated with the new
message when the previous top is non-empty, else the message itself. -/
def pushedEntry (msg : String) (s : SessionState) : String :=
  let prev := (s.statusStack.getLast?).getD ""
  if prev = "" then msg else prev ++ " -- " ++ msg

theorem statusPush_statusStack (m : String) (s : SessionState) :
    (statusPush m s).statusStack = s.statusStack ++ [pushedEntry m s] := rfl

theorem statusPush_sent (m : String) (s : SessionState) :
    (statusPush m s).sent = s.sent ++ [pushedEntry m s] := rfl

theorem statusPop_statusStack (b : Bool) (s : SessionState) :
    (statusPop b s).statusStack = s.statusStack.dropLast := rfl

theorem statusPop_sent (b : Bool) (s : SessionState) :
    (statusPop b s).sent =
      s.sent ++ [((s.statusStack.dropLast).getLast?).getD ""] := rfl

theorem acquireActivePage_inForeground (s : SessionState) :
    (acquireActivePage s).inForeground = true := rfl

theorem acquireActivePage_tokenHeld (s : SessionState) :
    (acquireActivePage s).tokenHeld = true := rfl

theorem releaseActivePage_inForeground (s : SessionState) :
    (releaseActivePage s).inForeground = false := rfl

theorem releaseActivePage_tokenHeld (s : SessionState) :
    (releaseActivePage s).tokenHeld = false := rfl

theorem waitBody_events (ms : Nat) (wIn : Option Mode) (s : SessionState) :
    ((waitBody ms wIn s).2).events = s.events ++ [⟨ms, s.tokenHeld⟩] := rfl

theorem acquireActivePage_events (s : SessionState) :
    (acquireActivePage s).events = s.events := rfl

theorem releaseActivePage_events (s : SessionState) :
    (releaseActivePage s).events = s.events := rfl

/-! ## Claim theorems -/

/-- C1: runInForeground invokes fn directly when the session already holds
the Foreground Token (no second acquisition); otherwise it acquires the
token and sets the in-foreground flag before invoking fn, and the cleanup
applies releaseActivePage to the resulting state on every exit path — the
equation holds for every fn, whether its result is ok or error — so the
final state has the flag cleared and the token released. -/
theorem runInForeground_spec {α : Type} (fn : SessionState → Except String α × SessionState)
    (s : SessionState) :
    (s.inForeground = true → runInForeground fn s = fn s)
    ∧ (s.inForeground = false →
        (acquireActivePage s).inForeground = true
        ∧ (acquireActivePage s).tokenHeld = true
        ∧ runInForeground fn s =
            ((fn (acquireActivePage s)).1, releaseActivePage (fn (acquireActivePage s)).2)
        ∧ (runInForeground fn s).2.inForeground = false
        ∧ (runInForeground fn s).2.tokenHeld = false) := by
  constructor
  · intro h
    simp [runInForeground, h]
  · intro h
    refine ⟨rfl, rfl, ?_, ?_, ?_⟩ <;>
      simp [runInForeground, h, releaseActivePage_inForeground, releaseActivePage_tokenHeld]

/-- Witness for C1 at a concrete background-mode session and a throwing
function: after runInForeground the flag is cleared and the token free. -/
theorem runInForeground_spec_witness :
    (({} : SessionState).inForeground = false)
    ∧ (runInForeground fnBoom {}).2.inForeground = false
    ∧ (runInForeground fnBoom {}).2.tokenHeld = false :=
  ⟨rfl, ((runInForeground_spec fnBoom {}).2 rfl).2.2.2.1,
    ((runInForeground_spec fnBoom {}).2 rfl).2.2.2.2⟩

/-- C2 counterexample: a session holding the Foreground Token that calls
runInBackground with a throwing function does NOT resume the foreground:
the error propagates and the final state has neither the flag nor the
token, refuting the claimed re-acquire-on-failure behaviour. -/
theorem runInBackground_reacquire_cex :
    fgState.inForeground = true
    ∧ (runInBackground fnBoom fgState).1 = Except.error "boom"
    ∧ (runInBackground fnBoom fgState).2.inForeground = false
    ∧ (runInBackground fnBoom fgState).2.tokenHeld = false :=
  ⟨rfl, rfl, rfl, rfl⟩

/-- C2 amended: runInBackground runs fn directly when not in the
foreground; when in the foreground it releases the token, runs fn, and
re-acquires only on the normal-return branch — when fn throws, the error
propagates without any re-acquire (there is no cleanup block here). -/
theorem runInBackground_spec {α : Type} (fn : SessionState → Except String α × SessionState)
    (s : SessionState) :
    (s.inForeground = false → runInBackground fn s = fn s)
    ∧ (s.inForeground = true →
        (releaseActivePage s).tokenHeld = false
        ∧ (∀ r s2, fn (releaseActivePage s) = (Except.ok r, s2) →
            runInBackground fn s = (Except.ok r, acquireActivePage s2)
            ∧ (acquireActivePage s2).inForeground = true
            ∧ (acquireActivePage s2).tokenHeld = true)
        ∧ (∀ e s2, fn (releaseActivePage s) = (Except.error e, s2) →
            runInBackground fn s = (Except.error e, s2))) := by
  constructor
  · intro h
    simp [runInBackground, h]
  · intro h
    refine ⟨rfl, ?_, ?_⟩
    · intro r s2 hfn
      refine ⟨?_, rfl, rfl⟩
      simp [runInBackground, h, hfn]
    · intro e s2 hfn
      simp [runInBackground, h, hfn]

/-- Witness for C2 amended at a concrete foreground session and a throwing
function. -/
theorem runInBackground_spec_witness :
    fgState.inForeground = true
    ∧ fnBoom (releaseActivePage fgState) = (Except.error "boom", releaseActivePage fgState)
    ∧ runInBackground fnBoom fgState = (Except.error "boom", releaseActivePage fgState) :=
  ⟨rfl, rfl,
    ((runInBackground_spec fnBoom fgState).2 rfl).2.2 "boom" (releaseActivePage fgState) rfl⟩

/-- C3: after statusPush A then statusPush B, the stored top entry is the
entry the first push produced concatenated with " -- " and B (computed at
push time), and statusPop removes it, restoring the stack of the first push
and republishing exactly the entry the first push produced; in particular,
from an empty stack with non-empty A, the entries are literally A and
"A -- B" and the pop republishes "A". -/
theorem statusPush_statusPop_spec (s : SessionState) (A B : String) :
    ((statusPush B (statusPush A s)).statusStack.getLast?).getD "" =
      (if pushedEntry A s = "" then B else pushedEntry A s ++ " -- " ++ B)
    ∧ (statusPop true (statusPush B (statusPush A s))).statusStack =
        (statusPush A s).statusStack
    ∧ (statusPop true (statusPush B (statusPush A s))).sent =
        (statusPush B (statusPush A s)).sent ++ [pushedEntry A s]
    ∧ (s.statusStack = [] → A ≠ "" →
        (statusPush B (statusPush A s)).statusStack = [A, A ++ " -- " ++ B]
        ∧ ((statusPop true (statusPush B (statusPush A s))).sent.getLast?).getD "" = A) := by
  have hA : (statusPush A s).statusStack = s.statusStack ++ [pushedEntry A s] :=
    statusPush_statusStack A s
  have hprev : ((statusPush A s).statusStack.getLast?).getD "" = pushedEntry A s := by
    rw [hA]; simp
  have hEB : pushedEntry B (statusPush A s) =
      if pushedEntry A s = "" then B else pushedEntry A s ++ " -- " ++ B := by
    simp [pushedEntry, hA]
  have hB : (statusPush B (statusPush A s)).statusStack =
      (statusPush A s).statusStack ++ [pushedEntry B (statusPush A s)] :=
    statusPush_statusStack B (statusPush A s)
  refine ⟨?_, ?_, ?_, ?_⟩
  · rw [hB]; simp [hEB]
  · rw [statusPop_statusStack, hB]; simp
  · rw [statusPop_sent, hB]; simp [hprev]
  · intro hemp hA0
    have eA : pushedEntry A s = A := by simp [pushedEntry, hemp]
    have eB : pushedEntry B (statusPush A s) = A ++ " -- " ++ B := by
      rw [hEB, eA]; simp [hA0]
    constructor
    · rw [hB, hA, hemp, eA, eB]; rfl
    · rw [statusPop_sent, hB]; simp [hprev, eA]

/-- Witness for C3 at the empty session and the strings "A", "B". -/
theorem statusPush_statusPop_spec_witness :
    (({} : SessionState).statusStack = [] ∧ ("A" : String) ≠ "")
    ∧ ((statusPush "B" (statusPush "A" ({} : SessionState))).statusStack = ["A", "A -- B"]
       ∧ ((statusPop true (statusPush "B" (statusPush "A" ({} : SessionState)))).sent.getLast?).getD ""
          = "A") :=
  ⟨⟨rfl, by decide⟩, (statusPush_statusPop_spec {} "A" "B").2.2.2 rfl (by decide)⟩

/-- C10: statusPop on a session with an empty status stack is a total
operation: the stack stays empty and the external status callback is
invoked with the empty string. -/
theorem statusPop_empty_spec (s : SessionState) (h : s.statusStack = []) :
    (statusPop true s).statusStack = [] ∧ (statusPop true s).sent = s.sent ++ [""] := by
  constructor
  · rw [statusPop_statusStack, h]; rfl
  · rw [statusPop_sent, h]; rfl

/-- Witness for C10 at the empty session. -/
theorem statusPop_empty_spec_witness :
    (({} : SessionState).statusStack = [])
    ∧ ((statusPop true ({} : SessionState)).statusStack = []
       ∧ (statusPop true ({} : SessionState)).sent = ({} : SessionState).sent ++ [""]) :=
  ⟨rfl, statusPop_empty_spec {} rfl⟩

/-- C7 counterexample: a session that does not hold the Foreground Token
and calls wait in "foreground" mode performs the delay WITHOUT holding the
token — the foreground branch runs the delay inline in the current state
instead of routing through runInForeground as the claim states. -/
theorem wait_foreground_cex :
    (({} : SessionState).inForeground = false ∧ ({} : SessionState).tokenHeld = false)
    ∧ (wait 5 (some Mode.foreground) ({} : SessionState)).2.events = [⟨5, false⟩] :=
  ⟨⟨rfl, rfl⟩, rfl⟩

/-- C7 amended: wait in "background" mode performs the delay while not
holding the Foreground Token (routing through runInBackground); in
"foreground" or unspecified mode it performs the delay inline while
holding the token exactly when the caller already holds it; and ms = 0 is
valid — yield() is exactly wait(0, "background"). -/
theorem wait_spec (ms : Nat) (s : SessionState) (hinv : s.tokenHeld = s.inForeground) :
    ((wait ms (some Mode.background) s).2.events = s.events ++ [⟨ms, false⟩])
    ∧ (∀ wIn, wIn ≠ some Mode.background →
        (wait ms wIn s).2.events = s.events ++ [⟨ms, s.tokenHeld⟩])
    ∧ yieldPage s = wait 0 (some Mode.background) s := by
  refine ⟨?_, ?_, rfl⟩
  · cases hfg : s.inForeground with
    | false =>
      simp [wait, runInBackground, hfg, waitBody_events]
      rw [hinv, hfg]
    | true =>
      simp [wait, runInBackground, hfg, waitBody, acquireActivePage, releaseActivePage,
        statusPush, statusPop, fStatus]
  · intro wIn hw
    simp [wait, hw, waitBody_events]

/-- Witness for C7 amended at the empty session. -/
theorem wait_spec_witness :
    (({} : SessionState).tokenHeld = ({} : SessionState).inForeground)
    ∧ (wait 3 (some Mode.background) ({} : SessionState)).2.events =
        ({} : SessionState).events ++ [⟨3, false⟩] :=
  ⟨rfl, (wait_spec 3 {} rfl).1⟩

/-- C4: waitForSelector resolves to an absent result instead of throwing —
an immediate miss with no timeout configured yields none at once, and a
driver error (including a timeout) during the native wait yields none; and
waitForSelectorOrFail throws an error carrying the selector text exactly
when waitForSelector yields none, otherwise returning the element. -/
theorem waitForSelector_spec (pm : PageModel) (opts : SelectorOptions) (sel : String) :
    (getSelectorImmediate pm.matchesNow opts.visible pm.trulyVisible = none →
      opts.timeoutMs = 0 → waitForSelector pm opts = none)
    ∧ (∀ e, pm.native = Except.error e →
        getSelectorImmediate pm.matchesNow opts.visible pm.trulyVisible = none →
        waitForSelector pm opts = none)
    ∧ (waitForSelectorOrFail pm opts sel =
        Except.error ("Couldn\x27t find required selector: " ++ sel) ↔
        waitForSelector pm opts = none)
    ∧ (∀ r, waitForSelectorOrFail pm opts sel = Except.ok r ↔
        waitForSelector pm opts = some r) := by
  refine ⟨?_, ?_, ?_, ?_⟩
  · intro h1 h2
    simp [waitForSelector, h1, h2]
  · intro e he h1
    by_cases ht : opts.timeoutMs = 0 <;> simp [waitForSelector, h1, ht, he]
  · unfold waitForSelectorOrFail
    cases waitForSelector pm opts <;> simp
  · intro r
    unfold waitForSelectorOrFail
    cases waitForSelector pm opts <;> simp

/-- Witness for C4 on a page whose selector never matches and whose native
wait throws a timeout error. -/
theorem waitForSelector_spec_witness :
    (pmTimeout.native = Except.error "TimeoutError"
     ∧ getSelectorImmediate pmTimeout.matchesNow false pmTimeout.trulyVisible = none)
    ∧ waitForSelector pmTimeout { timeoutMs := 100 } = none :=
  ⟨⟨rfl, rfl⟩,
    (waitForSelector_spec pmTimeout { timeoutMs := 100 } "#missing").2.1 "TimeoutError" rfl rfl⟩

/-- C5: the task body of addPageTask delivers the job outcome unchanged —
an error raised by the execution function is re-raised to the caller — and
the state paired with that outcome is the post-acquisition state with the
acquired page unconditionally pushed back onto the available pool, on the
success and the failure branch alike. -/
theorem addPageTask_cleanup (env : MgrEnv) (s : MgrState) (outcome : Except String Unit) :
    (addPageTaskBody env outcome s).1 = outcome
    ∧ (addPageTaskBody env outcome s).2 =
        acceptClosedPage (getPage env s).1 (getPage env s).2.1
    ∧ (getPage env s).1 ∈ (addPageTaskBody env outcome s).2.availablePages := by
  refine ⟨?_, rfl, ?_⟩
  · cases outcome <;> rfl
  · simp [addPageTaskBody, acceptClosedPage]

/-- C6: when the available pool is non-empty, getPage pops and returns the
page at the end of the pool, create is not invoked, and the browser field
and launch count are unchanged. -/
theorem getPage_pool_nonempty (env : MgrEnv) (s : MgrState) (h : s.availablePages ≠ []) :
    ∃ p, s.availablePages.getLast? = some p
      ∧ getPage env s = (p, { s with availablePages := s.availablePages.dropLast }, false)
      ∧ (getPage env s).2.1.browser = s.browser
      ∧ (getPage env s).2.1.launches = s.launches := by
  cases hl : s.availablePages.getLast? with
  | none => exact absurd (by simpa using hl) h
  | some p =>
    refine ⟨p, rfl, ?_, ?_, ?_⟩ <;> (unfold getPage; rw [hl])

/-- Witness for C6 at a manager whose pool holds one page. -/
theorem getPage_pool_nonempty_witness :
    mgrPool1.availablePages ≠ []
    ∧ ∃ p, mgrPool1.availablePages.getLast? = some p
      ∧ getPage env0 mgrPool1 =
          (p, { mgrPool1 with availablePages := mgrPool1.availablePages.dropLast }, false)
      ∧ (getPage env0 mgrPool1).2.1.browser = mgrPool1.browser
      ∧ (getPage env0 mgrPool1).2.1.launches = mgrPool1.launches :=
  ⟨by decide, getPage_pool_nonempty env0 mgrPool1 (by decide)⟩

/-- C8 (code bug): over three equally-positioned visible elements the els
array receives insertion indices 0, 1, 2, but the comparator passed to the
sort evaluates to the constant 3 — the final value of the enclosing loop
counter, the number of visible elements — for every ordered pair of them.
It is therefore positive in both orientations (so it is not even a
consistent ordering) and independent of the per-element insertion indices,
so it cannot realise the smallest-insertion-index tie-break the claim (and
the field comment in the source) describe. -/
theorem getFirstVisibleElement_tiebreak_bug :
    buildVisibleEls [some (10, 20), some (10, 20), some (10, 20)] =
      [⟨10, 20, 0⟩, ⟨10, 20, 1⟩, ⟨10, 20, 2⟩]
    ∧ sortComparator 3 ⟨10, 20, 0⟩ ⟨10, 20, 1⟩ = 3
    ∧ sortComparator 3 ⟨10, 20, 1⟩ ⟨10, 20, 0⟩ = 3
    ∧ sortComparator 3 ⟨10, 20, 0⟩ ⟨10, 20, 2⟩ = 3
    ∧ sortComparator 3 ⟨10, 20, 2⟩ ⟨10, 20, 0⟩ = 3
    ∧ sortComparator 3 ⟨10, 20, 1⟩ ⟨10, 20, 2⟩ = 3
    ∧ sortComparator 3 ⟨10, 20, 2⟩ ⟨10, 20, 1⟩ = 3
    ∧ (0 : Int) < 3 := by decide

/-- C9 counterexample: typing "a\nb" in multi-line mode ends with a
shift-held Enter after the final line "b", so the soft line break is not
only emitted between consecutive lines as the claim states. -/
theorem typeInElement_trailing_softbreak_cex :
    typeInElementKeys true false ['a', Char.ofNat 10, 'b'] =
      [KeyEv.typeText ['a'], KeyEv.down "Shift", KeyEv.press "Enter", KeyEv.up "Shift",
       KeyEv.typeText ['b'], KeyEv.down "Shift", KeyEv.press "Enter", KeyEv.up "Shift"]
    ∧ (typeInElementKeys true false ['a', Char.ofNat 10, 'b']).getLast? =
        some (KeyEv.up "Shift") := by
  decide

theorem count_down_perLine (l : List Char) :
    (perLineKeys l).count (KeyEv.down "Shift") = 1 := by
  by_cases h : trimRightChars l = [] <;> simp [perLineKeys, h]

theorem count_press_perLine (l : List Char) :
    (perLineKeys l).count (KeyEv.press "Enter") = 1 := by
  by_cases h : trimRightChars l = [] <;> simp [perLineKeys, h]

theorem count_down_flatMap (lines : List (List Char)) :
    (lines.flatMap perLineKeys).count (KeyEv.down "Shift") = lines.length := by
  induction lines with
  | nil => rfl
  | cons l ls ih =>
    rw [List.flatMap_cons, List.count_append, count_down_perLine, ih, List.length_cons]
    omega

theorem count_press_flatMap (lines : List (List Char)) :
    (lines.flatMap perLineKeys).count (KeyEv.press "Enter") = lines.length := by
  induction lines with
  | nil => rfl
  | cons l ls ih =>
    rw [List.flatMap_cons, List.count_append, count_press_perLine, ih, List.length_cons]
    omega

theorem typeText_mem_perLine {s l : List Char}
    (h : KeyEv.typeText s ∈ perLineKeys l) : s = trimRightChars l ∧ s ≠ [] := by
  by_cases he : trimRightChars l = []
  · simp [perLineKeys, he] at h
  · simp [perLineKeys, he] at h
    refine ⟨h, ?_⟩
    rw [h]; exact he

/-- C9 amended: in multi-line mode typeInElement emits exactly one
shift-held Enter per newline-split line — after every line, including the
final one, not only between lines — every text keystroke chunk is the
trailing-trimmed form of one of the lines and is non-empty, and the plain
Enter count exceeds the shift-held ones exactly when press-return-at-end
is set. -/
theorem typeInElement_keys_spec (text : List Char) (pre : Bool) :
    ((typeInElementKeys true pre text).count (KeyEv.down "Shift") = (splitLines text).length)
    ∧ ((typeInElementKeys true pre text).count (KeyEv.press "Enter") =
        (splitLines text).length + (if pre then 1 else 0))
    ∧ (∀ s, KeyEv.typeText s ∈ typeInElementKeys true pre text →
        s ≠ [] ∧ ∃ l ∈ splitLines text, s = trimRightChars l) := by
  refine ⟨?_, ?_, ?_⟩
  · rw [typeInElementKeys]
    simp only [if_true, List.count_append, count_down_flatMap]
    cases pre <;> simp
  · rw [typeInElementKeys]
    simp only [if_true, List.count_append, count_press_flatMap]
    cases pre <;> simp
  · intro s hs
    rw [typeInElementKeys] at hs
    simp only [if_true, List.mem_append] at hs
    rcases hs with hm | ht
    · obtain ⟨l, hl, hmem⟩ := List.mem_flatMap.mp hm
      obtain ⟨h1, h2⟩ := typeText_mem_perLine hmem
      exact ⟨h2, ⟨l, hl, h1⟩⟩
    · cases pre <;> simp at ht

/-- Witness for C9 amended: the chunk "a" typed for the text "a\nb" is
non-empty and is the trimmed form of one of the split lines. -/
theorem typeInElement_keys_spec_witness :
    (KeyEv.typeText ['a'] ∈ typeInElementKeys true false ['a', Char.ofNat 10, 'b'])
    ∧ (['a'] ≠ [] ∧ ∃ l ∈ splitLines ['a', Char.ofNat 10, 'b'], ['a'] = trimRightChars l) :=
  ⟨by decide, (typeInElement_keys_spec ['a', Char.ofNat 10, 'b'] false).2.2 ['a'] (by decide)⟩

end Puppyteer
